import Mathlib

/-!
Verification development for the Arduino-Soundbar repository.

The Python sources are shallowly embedded as Lean functions:
* `src/audio_player.py` — channel assignment (`_get_fixed_channel_for_button`),
  pool growth (`_ensure_min_channels`), `stop_all_audio`, `play_audio`;
* `src/main.py` — `Controller._handle_arduino_message`,
  `Controller.handle_update_mappings`.

Python strings are embedded as `List Char`; the mutable module-level state of
`audio_player.py` (`_sound_cache`, `_channel_by_btn`, the mixer channel pool)
is carried explicitly in an `EngineState` record; filesystem queries
(`os.path.isfile`) are an explicit boolean oracle parameter. The embedding
covers the pygame backend path (pygame importable and the mixer initialized by
`_init_pygame`); the winsound fallback is a degraded mode with no channel
state and is not modelled here.
-/

namespace Soundbar

/-- Python strings are finite sequences of characters. -/
abbrev PyStr := List Char

/-- The decimal digit character for `m` (callers always pass `m < 10`), as in
Python's decimal rendering of a nonnegative integer. -/
def digitChar (m : Nat) : Char :=
  if m = 0 then '0' else if m = 1 then '1' else if m = 2 then '2'
  else if m = 3 then '3' else if m = 4 then '4' else if m = 5 then '5'
  else if m = 6 then '6' else if m = 7 then '7' else if m = 8 then '8'
  else '9'

/-- Fuel-driven accumulator loop producing the decimal digits of `n` in front
of `acc`. Any `fuel ≥ n` is enough, since `n` shrinks at least tenfold per
step; structural recursion on the fuel keeps the function kernel-reducible. -/
def natDecimalAux : Nat → Nat → PyStr → PyStr
  | 0, _, acc => acc
  | _ + 1, 0, acc => acc
  | fuel + 1, n + 1, acc =>
      natDecimalAux fuel ((n + 1) / 10) (digitChar ((n + 1) % 10) :: acc)

/-- Decimal rendering of a natural number, as Python's `str` produces for a
nonnegative `int`: no sign, no leading zeros, `"0"` for zero. -/
def natDecimal (n : Nat) : PyStr :=
  if n = 0 then ['0'] else natDecimalAux n n []

/-- Numeric value of a decimal digit character. -/
def digitVal (c : Char) : Nat := c.toNat - 48

/-- One step of decimal accumulation. -/
def digitsStep (a : Nat) (c : Char) : Nat := a * 10 + digitVal c

/-- Value of a string of decimal digits. -/
def digitsVal (s : PyStr) : Nat := s.foldl digitsStep 0

/-- Python's `str.strip()` with no arguments: remove leading and trailing
whitespace. (`Char.isWhitespace` covers the ASCII whitespace actually
produced on the serial line; the wider Unicode set Python strips makes no
difference for any input considered here.) -/
def pyStrip (s : PyStr) : PyStr :=
  ((s.dropWhile Char.isWhitespace).reverse.dropWhile Char.isWhitespace).reverse

/-- Core of Python's `int(s)` on an already-stripped decimal string: an
optional single sign followed by a nonempty run of ASCII digits; `none` models
the `ValueError` that `int` raises otherwise. (Underscore digit grouping,
which Python also accepts, is not modelled; no identifier in this development
contains one.) -/
def pyIntCore (s : PyStr) : Option Int :=
  match s with
  | [] => none
  | c :: rest =>
      if c = '+' then
        if rest ≠ [] ∧ rest.all Char.isDigit then some (digitsVal rest : Int) else none
      else if c = '-' then
        if rest ≠ [] ∧ rest.all Char.isDigit then some (-(digitsVal rest : Int)) else none
      else
        if (c :: rest).all Char.isDigit then some (digitsVal (c :: rest) : Int) else none

/-- Python's `int(s)` for a decimal string literal: whitespace is stripped,
then the signed digit run is parsed. -/
def pyInt (s : PyStr) : Option Int := pyIntCore (pyStrip s)

/-- The canonical-id parse inside `_get_fixed_channel_for_button`
(src/audio_player.py): `btn_id.upper().startswith("BTN")`, then
`idx = int(btn_id[3:]) - 1`, with `idx` discarded when `int` raises or the
result is negative. `none` means the fallback allocation path is taken. -/
def parseBtnIdx (btn : PyStr) : Option Nat :=
  if (btn.map Char.toUpper).take 3 = ['B', 'T', 'N'] then
    match pyInt (btn.drop 3) with
    | none => none
    | some z => if z - 1 < 0 then none else some (z - 1).toNat
  else none

/-- The canonical button id `"BTN" + N` (decimal rendering of `N`). -/
def canonicalId (n : Nat) : PyStr := 'B' :: 'T' :: 'N' :: natDecimal n

/-- The two stop modes of `play_audio` (src/audio_player.py). -/
inductive StopMode
  | SAME
  | ANY
deriving DecidableEq

/-- `_DEFAULT_NUM_CHANNELS` from src/audio_player.py. -/
def DEFAULT_NUM_CHANNELS : Nat := 64

/-- The module-level mutable state of src/audio_player.py after
`_init_pygame` has run: the decoded-sound cache `_sound_cache` (keyed by file
path; the decoded handle is a deterministic function of the path, so only the
key set matters), the per-button channel table `_channel_by_btn` (a Python
dict, i.e. an insertion-ordered association list with unique keys), the mixer
channel count, and what each mixer channel is currently playing. -/
structure EngineState where
  soundCache : List PyStr
  channelByBtn : List (PyStr × Nat)
  numChannels : Nat
  playing : Nat → Option PyStr

/-- Engine state right after `_init_pygame`: empty caches and tables,
`set_num_channels(_DEFAULT_NUM_CHANNELS)` applied, nothing playing. -/
def initEngine : EngineState :=
  { soundCache := []
    channelByBtn := []
    numChannels := DEFAULT_NUM_CHANNELS
    playing := fun _ => none }

/-- Association-list lookup, the embedding of a Python dict read `d[k]` / the
`k in d` test. -/
def lookupAssoc {β : Type} : List (PyStr × β) → PyStr → Option β
  | [], _ => none
  | kv :: rest, b => if kv.1 = b then some kv.2 else lookupAssoc rest b

/-- `_ensure_min_channels` (src/audio_player.py): grow the mixer pool to
`max(min_channels, _DEFAULT_NUM_CHANNELS)` when it is below `min_channels`;
never shrink it. -/
def ensureMinChannels (current minChannels : Nat) : Nat :=
  if current < minChannels then max minChannels DEFAULT_NUM_CHANNELS else current

/-- `_get_fixed_channel_for_button` (src/audio_player.py): return the cached
channel index for `btn`, or assign one — the canonical index `N - 1` for ids
parsing as `"BTN" + N`, otherwise `len(_channel_by_btn)` — growing the pool so
the index exists, and record the assignment. -/
def getFixedChannelForButton (st : EngineState) (btn : PyStr) : Nat × EngineState :=
  match lookupAssoc st.channelByBtn btn with
  | some i => (i, st)
  | none =>
      let idx := match parseBtnIdx btn with
        | some i => i
        | none => st.channelByBtn.length
      (idx,
        { st with
          numChannels := ensureMinChannels st.numChannels (idx + 1)
          channelByBtn := st.channelByBtn ++ [(btn, idx)] })

/-- `stop_all_audio` (src/audio_player.py): `pygame.mixer.stop()` silences
every channel; the channel table is kept. -/
def stopAllAudio (st : EngineState) : EngineState :=
  { st with playing := fun _ => none }

/-- `Channel.stop()` on channel `i` of a pool `p`. -/
def chStop (p : Nat → Option PyStr) (i : Nat) : Nat → Option PyStr :=
  fun j => if j = i then none else p j

/-- `Channel.play(sound)` on channel `i` of a pool `p`. -/
def chPlay (p : Nat → Option PyStr) (i : Nat) (s : PyStr) : Nat → Option PyStr :=
  fun j => if j = i then some s else p j

/-- `play_audio` (src/audio_player.py), pygame path: bail out when the path is
empty or `os.path.isfile` (the `fileOk` oracle) fails; cache the decoded
sound on first use; resolve the button's fixed channel; then either stop all
channels (`"ANY"`) or only this channel (`"SAME"`) before playing on it. -/
def playAudio (fileOk : PyStr → Bool) (st : EngineState) (btn filePath : PyStr)
    (stopMode : StopMode) : EngineState :=
  if filePath = [] ∨ fileOk filePath = false then st
  else
    let stc := if filePath ∈ st.soundCache then st
      else { st with soundCache := st.soundCache ++ [filePath] }
    let r := getFixedChannelForButton stc btn
    match stopMode with
    | StopMode.ANY =>
        let st1 := stopAllAudio r.2
        { st1 with playing := chPlay st1.playing r.1 filePath }
    | StopMode.SAME =>
        { r.2 with playing := chPlay (chStop r.2.playing r.1) r.1 filePath }

/-- The operations the rest of the program performs on the audio engine:
`play_audio` triggers and `stop_all_audio`. -/
inductive EngineOp
  | trigger (btn filePath : PyStr) (stopMode : StopMode)
  | stopAll

/-- Run one engine operation. -/
def runOp (fileOk : PyStr → Bool) (st : EngineState) : EngineOp → EngineState
  | EngineOp.trigger b p m => playAudio fileOk st b p m
  | EngineOp.stopAll => stopAllAudio st

/-- Run a sequence of engine operations. -/
def runOps (fileOk : PyStr → Bool) (st : EngineState) (ops : List EngineOp) : EngineState :=
  ops.foldl (runOp fileOk) st

/-- Invariant of the channel table: every recorded assignment of a
canonically-parsed id carries its canonical index, and every recorded index
fits inside the current pool. -/
def EngineInv (st : EngineState) : Prop :=
  ∀ b i, (b, i) ∈ st.channelByBtn →
    (∀ k, parseBtnIdx b = some k → i = k) ∧ i + 1 ≤ st.numChannels

/-- The mutable state of `Controller` (src/main.py) that
`_handle_arduino_message` reads and writes, together with the engine state it
acts on. `audio_folder` is the GUI's currently configured folder
(`self.app.audio_folder`). -/
structure CtrlState where
  stop_mode : StopMode
  toggle_button_id : PyStr
  button_mappings : List (PyStr × PyStr)
  audio_folder : PyStr
  engine : EngineState

/-- The observable side effects `_handle_arduino_message` performs: a
`stop_all_audio()` call, the `self.app.set_stop_mode(...)` notification, a
`play_audio(...)` call, and the `"No audio mapped"` report. -/
inductive Event
  | stopAllCall
  | notifyMode (m : StopMode)
  | playCall (btn filePath : PyStr) (mode : StopMode)
  | unmappedReport (btn : PyStr)
deriving DecidableEq

/-- The stop-mode flip in `_handle_arduino_message`:
`"ANY" if self.stop_mode == "SAME" else "SAME"`. -/
def flipMode : StopMode → StopMode
  | StopMode.SAME => StopMode.ANY
  | StopMode.ANY => StopMode.SAME

/-- `os.path.isabs`, POSIX form: the path begins with a separator. (On
Windows the test additionally accepts drive prefixes; no property here
depends on the separator convention.) -/
def isAbs (p : PyStr) : Bool :=
  match p with
  | '/' :: _ => true
  | _ => false

/-- `os.path.join(folder, name)` for the two-argument calls in src/main.py:
an absolute `name` stands alone, an empty `folder` leaves `name` unchanged,
and otherwise a separator is inserted unless `folder` already ends in one. -/
def joinPath (folder name : PyStr) : PyStr :=
  if isAbs name then name
  else if folder = [] then name
  else if folder.getLast? = some '/' then folder ++ name
  else folder ++ '/' :: name

/-- `Controller._handle_arduino_message` (src/main.py): strip the line; drop
it when empty; when a toggle id is configured and matches, flip the stop
mode, call `stop_all_audio()`, notify the GUI, and return; otherwise look the
line up in the mapping and either call `play_audio` on the resolved path (a
relative path is joined onto the GUI's audio folder) or report it unmapped.
The returned list records the side effects in order. The `App` class in
src/gui.py defines `set_stop_mode`, so the `hasattr` guard before the
notification always passes. -/
def handleArduinoMessage (fileOk : PyStr → Bool) (st : CtrlState) (msg : PyStr) :
    CtrlState × List Event :=
  let m := pyStrip msg
  if m = [] then (st, [])
  else if st.toggle_button_id ≠ [] ∧ m = st.toggle_button_id then
    let newMode := flipMode st.stop_mode
    ({ st with stop_mode := newMode, engine := stopAllAudio st.engine },
      [Event.stopAllCall, Event.notifyMode newMode])
  else
    match lookupAssoc st.button_mappings m with
    | some mapped =>
        let filePath := if isAbs mapped then mapped else joinPath st.audio_folder mapped
        ({ st with engine := playAudio fileOk st.engine m filePath st.stop_mode },
          [Event.playCall m filePath st.stop_mode])
    | none => (st, [Event.unmappedReport m])

/-- `Controller.handle_update_mappings` (src/main.py): store the mapping
exactly as given, then `_sync_toggle_settings_from_gui` re-reads the toggle
id and stop mode from the GUI (both getters exist on `App`). -/
def handleUpdateMappings (st : CtrlState) (mappings : List (PyStr × PyStr))
    (guiToggle : PyStr) (guiMode : StopMode) : CtrlState :=
  { st with
    button_mappings := mappings
    toggle_button_id := guiToggle
    stop_mode := guiMode }

/-- A concrete controller state with toggle id `"BTN9"` that is also a mapped
button. -/
def ctrlC4 : CtrlState :=
  { stop_mode := StopMode.SAME
    toggle_button_id := ['B', 'T', 'N', '9']
    button_mappings := [(['B', 'T', 'N', '9'], ['x', '.', 'w', 'a', 'v'])]
    audio_folder := []
    engine := initEngine }

/-- A concrete controller state with no configured audio folder and a
relative mapped path for `"BTN1"`. -/
def ctrlC6 : CtrlState :=
  { stop_mode := StopMode.SAME
    toggle_button_id := []
    button_mappings := [(['B', 'T', 'N', '1'], ['a', '.', 'w', 'a', 'v'])]
    audio_folder := []
    engine := initEngine }

/-! ### Facts about the decimal rendering and Python's `int` parse -/

theorem mem_natDecimalAux (fuel : Nat) : ∀ (n : Nat) (acc : PyStr) (c : Char),
    c ∈ natDecimalAux fuel n acc → (∃ m, m < 10 ∧ c = digitChar m) ∨ c ∈ acc := by
  induction fuel with
  | zero => intro n acc c hc; exact Or.inr hc
  | succ fuel ih =>
      intro n acc c hc
      cases n with
      | zero => exact Or.inr hc
      | succ k =>
          simp only [natDecimalAux] at hc
          rcases ih _ _ _ hc with h | h
          · exact Or.inl h
          · rcases List.mem_cons.mp h with h | h
            · exact Or.inl ⟨(k + 1) % 10, Nat.mod_lt _ (by omega), h⟩
            · exact Or.inr h

theorem mem_natDecimal (n : Nat) (c : Char) (hc : c ∈ natDecimal n) :
    ∃ m, m < 10 ∧ c = digitChar m := by
  unfold natDecimal at hc
  by_cases h0 : n = 0
  · rw [if_pos h0] at hc
    rcases List.mem_singleton.mp hc with rfl
    exact ⟨0, by omega, rfl⟩
  · rw [if_neg h0] at hc
    rcases mem_natDecimalAux n n [] c hc with h | h
    · exact h
    · simp at h

theorem digitChar_facts (m : Nat) (h : m < 10) :
    (digitChar m).isDigit = true ∧ (digitChar m).isWhitespace = false ∧
      digitChar m ≠ '+' ∧ digitChar m ≠ '-' := by
  interval_cases m <;> refine ⟨by decide, by decide, by decide, by decide⟩

theorem digitVal_digitChar (m : Nat) (h : m < 10) : digitVal (digitChar m) = m := by
  interval_cases m <;> decide

theorem natDecimalAux_ne_nil (fuel : Nat) : ∀ (n : Nat) (acc : PyStr),
    acc ≠ [] → natDecimalAux fuel n acc ≠ [] := by
  induction fuel with
  | zero => intro n acc h; exact h
  | succ fuel ih =>
      intro n acc h
      cases n with
      | zero => exact h
      | succ k =>
          simp only [natDecimalAux]
          exact ih _ _ (by simp)

theorem natDecimal_ne_nil (n : Nat) : natDecimal n ≠ [] := by
  unfold natDecimal
  by_cases h0 : n = 0
  · rw [if_pos h0]; simp
  · rw [if_neg h0]
    obtain ⟨k, rfl⟩ := Nat.exists_eq_succ_of_ne_zero h0
    simp only [natDecimalAux]
    exact natDecimalAux_ne_nil _ _ _ (by simp)

theorem foldl_natDecimalAux (fuel : Nat) : ∀ (n : Nat) (acc : PyStr), n ≤ fuel →
    (natDecimalAux fuel n acc).foldl digitsStep 0 = acc.foldl digitsStep n := by
  induction fuel with
  | zero =>
      intro n acc h
      obtain rfl : n = 0 := by omega
      rfl
  | succ fuel ih =>
      intro n acc h
      cases n with
      | zero => rfl
      | succ k =>
          have hlt : (k + 1) / 10 < k + 1 := Nat.div_lt_self (by omega) (by omega)
          simp only [natDecimalAux]
          rw [ih _ _ (by omega), List.foldl_cons]
          have hmod : digitVal (digitChar ((k + 1) % 10)) = (k + 1) % 10 :=
            digitVal_digitChar _ (Nat.mod_lt _ (by omega))
          simp only [digitsStep, hmod]
          congr 1
          omega

theorem digitsVal_natDecimal (n : Nat) : digitsVal (natDecimal n) = n := by
  unfold natDecimal digitsVal
  by_cases h0 : n = 0
  · subst h0; decide
  · rw [if_neg h0, foldl_natDecimalAux n n [] (le_refl n)]
    rfl

theorem natDecimal_all_digit (n : Nat) : (natDecimal n).all Char.isDigit = true := by
  rw [List.all_eq_true]
  intro c hc
  obtain ⟨m, hm, rfl⟩ := mem_natDecimal n c hc
  exact (digitChar_facts m hm).1

theorem dropWhile_eq_self_of_all_false {p : Char → Bool} (l : PyStr)
    (h : ∀ c ∈ l, p c = false) : l.dropWhile p = l := by
  cases l with
  | nil => rfl
  | cons a t => rw [List.dropWhile_cons, h a (by simp)]; simp

theorem pyStrip_eq_self (l : PyStr) (h : ∀ c ∈ l, c.isWhitespace = false) :
    pyStrip l = l := by
  unfold pyStrip
  rw [dropWhile_eq_self_of_all_false l h,
    dropWhile_eq_self_of_all_false l.reverse (fun c hc => h c (List.mem_reverse.mp hc)),
    List.reverse_reverse]

theorem pyStrip_natDecimal (n : Nat) : pyStrip (natDecimal n) = natDecimal n := by
  refine pyStrip_eq_self _ (fun c hc => ?_)
  obtain ⟨m, hm, rfl⟩ := mem_natDecimal n c hc
  exact (digitChar_facts m hm).2.1

theorem pyIntCore_natDecimal (n : Nat) : pyIntCore (natDecimal n) = some (n : Int) := by
  rcases hs : natDecimal n with _ | ⟨c, rest⟩
  · exact absurd hs (natDecimal_ne_nil n)
  · obtain ⟨m, hm, hc⟩ := mem_natDecimal n c (by rw [hs]; exact List.mem_cons_self _ _)
    have hfacts := digitChar_facts m hm
    have hplus : ¬(c = '+') := by rw [hc]; exact hfacts.2.2.1
    have hminus : ¬(c = '-') := by rw [hc]; exact hfacts.2.2.2
    have hall : (c :: rest).all Char.isDigit = true := by rw [← hs]; exact natDecimal_all_digit n
    have hval : digitsVal (c :: rest) = n := by rw [← hs]; exact digitsVal_natDecimal n
    simp only [pyIntCore, if_neg hplus, if_neg hminus, hall, if_pos, hval]

theorem pyInt_natDecimal (n : Nat) : pyInt (natDecimal n) = some (n : Int) := by
  unfold pyInt
  rw [pyStrip_natDecimal, pyIntCore_natDecimal]

theorem parseBtnIdx_caseVariant (c1 c2 c3 : Char) (n : Nat) (h1 : c1.toUpper = 'B')
    (h2 : c2.toUpper = 'T') (h3 : c3.toUpper = 'N') (hn : 1 ≤ n) :
    parseBtnIdx (c1 :: c2 :: c3 :: natDecimal n) = some (n - 1) := by
  unfold parseBtnIdx
  rw [if_pos]
  · rw [show (c1 :: c2 :: c3 :: natDecimal n).drop 3 = natDecimal n from rfl,
      pyInt_natDecimal]
    simp only
    rw [if_neg (by omega)]
    congr 1
    omega
  · simp [h1, h2, h3]

theorem parseBtnIdx_canonical (n : Nat) (hn : 1 ≤ n) :
    parseBtnIdx (canonicalId n) = some (n - 1) :=
  parseBtnIdx_caseVariant 'B' 'T' 'N' n (by decide) (by decide) (by decide) hn

/-! ### Facts about the channel table and the engine state machine -/

theorem lookupAssoc_mem {β : Type} (l : List (PyStr × β)) (b : PyStr) (v : β)
    (h : lookupAssoc l b = some v) : (b, v) ∈ l := by
  induction l with
  | nil => simp [lookupAssoc] at h
  | cons kv rest ih =>
      by_cases hk : kv.1 = b
      · rw [lookupAssoc, if_pos hk] at h
        obtain rfl : kv.2 = v := by injection h
        exact List.mem_cons.mpr (Or.inl (by cases kv; simp_all))
      · rw [lookupAssoc, if_neg hk] at h
        exact List.mem_cons.mpr (Or.inr (ih h))

theorem lookupAssoc_append_some {β : Type} (l l2 : List (PyStr × β)) (b : PyStr) (v : β)
    (h : lookupAssoc l b = some v) : lookupAssoc (l ++ l2) b = some v := by
  induction l with
  | nil => simp [lookupAssoc] at h
  | cons kv rest ih =>
      by_cases hk : kv.1 = b
      · rw [lookupAssoc, if_pos hk] at h
        rw [List.cons_append, lookupAssoc, if_pos hk]
        exact h
      · rw [lookupAssoc, if_neg hk] at h
        rw [List.cons_append, lookupAssoc, if_neg hk]
        exact ih h

theorem lookupAssoc_append_self {β : Type} (l : List (PyStr × β)) (b : PyStr) (v : β)
    (h : lookupAssoc l b = none) : lookupAssoc (l ++ [(b, v)]) b = some v := by
  induction l with
  | nil => simp [lookupAssoc]
  | cons kv rest ih =>
      by_cases hk : kv.1 = b
      · rw [lookupAssoc, if_pos hk] at h
        exact absurd h (by simp)
      · rw [lookupAssoc, if_neg hk] at h
        rw [List.cons_append, lookupAssoc, if_neg hk]
        exact ih h

theorem ensureMinChannels_ge_current (cur m : Nat) : cur ≤ ensureMinChannels cur m := by
  unfold ensureMinChannels
  split
  · exact le_trans (le_of_lt (by assumption)) (le_max_left _ _)
  · exact le_refl cur

theorem ensureMinChannels_ge_min (cur m : Nat) : m ≤ ensureMinChannels cur m := by
  unfold ensureMinChannels
  split
  · exact le_max_left _ _
  · omega

theorem gfc_of_lookup (st : EngineState) (b : PyStr) (i : Nat)
    (h : lookupAssoc st.channelByBtn b = some i) :
    getFixedChannelForButton st b = (i, st) := by
  unfold getFixedChannelForButton
  rw [h]

theorem gfc_lookup_self (st : EngineState) (b : PyStr) :
    lookupAssoc (getFixedChannelForButton st b).2.channelByBtn b
      = some (getFixedChannelForButton st b).1 := by
  unfold getFixedChannelForButton
  cases h : lookupAssoc st.channelByBtn b with
  | some i => exact h
  | none => exact lookupAssoc_append_self _ _ _ h

theorem gfc_idx_of_parse (st : EngineState) (b : PyStr) (k : Nat)
    (hinv : EngineInv st) (hp : parseBtnIdx b = some k) :
    (getFixedChannelForButton st b).1 = k := by
  unfold getFixedChannelForButton
  cases h : lookupAssoc st.channelByBtn b with
  | some i => exact (hinv b i (lookupAssoc_mem _ _ _ h)).1 k hp
  | none => simp [hp]

theorem gfc_preserves_inv (st : EngineState) (b : PyStr) (hinv : EngineInv st) :
    EngineInv (getFixedChannelForButton st b).2 := by
  unfold getFixedChannelForButton
  cases h : lookupAssoc st.channelByBtn b with
  | some i => exact hinv
  | none =>
      intro b' i' hmem
      simp only at hmem
      rcases List.mem_append.mp hmem with hm | hm
      · obtain ⟨h1, h2⟩ := hinv b' i' hm
        exact ⟨h1, le_trans h2 (ensureMinChannels_ge_current _ _)⟩
      · rcases List.mem_singleton.mp hm with ⟨rfl, rfl⟩
        constructor
        · intro k hk
          simp [hk]
        · exact ensureMinChannels_ge_min _ _

theorem gfc_numChannels_mono (st : EngineState) (b : PyStr) :
    st.numChannels ≤ (getFixedChannelForButton st b).2.numChannels := by
  unfold getFixedChannelForButton
  cases h : lookupAssoc st.channelByBtn b with
  | some i => exact le_refl _
  | none => exact ensureMinChannels_ge_current _ _

theorem gfc_capacity_of_parse (st : EngineState) (b : PyStr) (k : Nat)
    (hinv : EngineInv st) (hp : parseBtnIdx b = some k) :
    k + 1 ≤ (getFixedChannelForButton st b).2.numChannels := by
  unfold getFixedChannelForButton
  cases h : lookupAssoc st.channelByBtn b with
  | some i =>
      obtain ⟨h1, h2⟩ := hinv b i (lookupAssoc_mem _ _ _ h)
      rw [h1 k hp] at h2
      exact h2
  | none =>
      simp only [hp]
      exact ensureMinChannels_ge_min _ _

theorem gfc_lookup_persist (st : EngineState) (b btn : PyStr) (i : Nat)
    (h : lookupAssoc st.channelByBtn btn = some i) :
    lookupAssoc (getFixedChannelForButton st b).2.channelByBtn btn = some i := by
  unfold getFixedChannelForButton
  cases hb : lookupAssoc st.channelByBtn b with
  | some j => exact h
  | none => exact lookupAssoc_append_some _ _ _ _ h

theorem gfc_fst_cache (st : EngineState) (c : List PyStr) (b : PyStr) :
    (getFixedChannelForButton { st with soundCache := c } b).1
      = (getFixedChannelForButton st b).1 := by
  unfold getFixedChannelForButton
  cases h : lookupAssoc st.channelByBtn b <;> simp [h]

theorem gfc_playing (st : EngineState) (b : PyStr) :
    (getFixedChannelForButton st b).2.playing = st.playing := by
  unfold getFixedChannelForButton
  cases h : lookupAssoc st.channelByBtn b <;> simp [h]

theorem initEngine_inv : EngineInv initEngine := by
  intro b i h
  simp [initEngine] at h

theorem cacheSet_inv (st : EngineState) (c : List PyStr) (hinv : EngineInv st) :
    EngineInv { st with soundCache := c } :=
  fun b i h => hinv b i h

theorem playAudio_preserves_inv (fileOk : PyStr → Bool) (st : EngineState)
    (b p : PyStr) (mode : StopMode) (hinv : EngineInv st) :
    EngineInv (playAudio fileOk st b p mode) := by
  unfold playAudio
  split
  · exact hinv
  · have hstc : EngineInv (if p ∈ st.soundCache then st
        else { st with soundCache := st.soundCache ++ [p] }) := by
      split
      · exact hinv
      · exact cacheSet_inv st _ hinv
    cases mode with
    | ANY => exact fun b' i' h => gfc_preserves_inv _ b hstc b' i' h
    | SAME => exact fun b' i' h => gfc_preserves_inv _ b hstc b' i' h

theorem stopAllAudio_preserves_inv (st : EngineState) (hinv : EngineInv st) :
    EngineInv (stopAllAudio st) :=
  fun b i h => hinv b i h

theorem runOp_preserves_inv (fileOk : PyStr → Bool) (st : EngineState) (op : EngineOp)
    (hinv : EngineInv st) : EngineInv (runOp fileOk st op) := by
  cases op with
  | trigger b p m => exact playAudio_preserves_inv fileOk st b p m hinv
  | stopAll => exact stopAllAudio_preserves_inv st hinv

theorem runOps_preserves_inv (fileOk : PyStr → Bool) (ops : List EngineOp) :
    ∀ st : EngineState, EngineInv st → EngineInv (runOps fileOk st ops) := by
  induction ops with
  | nil => exact fun st h => h
  | cons op rest ih =>
      intro st h
      exact ih _ (runOp_preserves_inv fileOk st op h)

theorem playAudio_numChannels_mono (fileOk : PyStr → Bool) (st : EngineState)
    (b p : PyStr) (mode : StopMode) :
    st.numChannels ≤ (playAudio fileOk st b p mode).numChannels := by
  unfold playAudio
  split
  · exact le_refl _
  · have hstc : st.numChannels ≤ (if p ∈ st.soundCache then st
        else { st with soundCache := st.soundCache ++ [p] }).numChannels := by
      split <;> exact le_refl _
    cases mode with
    | ANY => exact le_trans hstc (gfc_numChannels_mono _ b)
    | SAME => exact le_trans hstc (gfc_numChannels_mono _ b)

theorem runOp_numChannels_mono (fileOk : PyStr → Bool) (st : EngineState) (op : EngineOp) :
    st.numChannels ≤ (runOp fileOk st op).numChannels := by
  cases op with
  | trigger b p m => exact playAudio_numChannels_mono fileOk st b p m
  | stopAll => exact le_refl _

theorem playAudio_lookup_persist (fileOk : PyStr → Bool) (st : EngineState)
    (b p btn : PyStr) (mode : StopMode) (i : Nat)
    (h : lookupAssoc st.channelByBtn btn = some i) :
    lookupAssoc (playAudio fileOk st b p mode).channelByBtn btn = some i := by
  unfold playAudio
  split
  · exact h
  · have hstc : lookupAssoc (if p ∈ st.soundCache then st
        else { st with soundCache := st.soundCache ++ [p] }).channelByBtn btn = some i := by
      split <;> exact h
    cases mode with
    | ANY => exact gfc_lookup_persist _ b btn i hstc
    | SAME => exact gfc_lookup_persist _ b btn i hstc

theorem runOp_lookup_persist (fileOk : PyStr → Bool) (st : EngineState) (op : EngineOp)
    (btn : PyStr) (i : Nat) (h : lookupAssoc st.channelByBtn btn = some i) :
    lookupAssoc (runOp fileOk st op).channelByBtn btn = some i := by
  cases op with
  | trigger b p m => exact playAudio_lookup_persist fileOk st b p btn m i h
  | stopAll => exact h

theorem runOps_lookup_persist (fileOk : PyStr → Bool) (ops : List EngineOp) :
    ∀ (st : EngineState) (btn : PyStr) (i : Nat),
      lookupAssoc st.channelByBtn btn = some i →
      lookupAssoc (runOps fileOk st ops).channelByBtn btn = some i := by
  induction ops with
  | nil => exact fun st btn i h => h
  | cons op rest ih =>
      intro st btn i h
      exact ih _ btn i (runOp_lookup_persist fileOk st op btn i h)

theorem playAudio_playing_eq (fileOk : PyStr → Bool) (st : EngineState)
    (b p : PyStr) (mode : StopMode) (hp : p ≠ []) (hf : fileOk p = true) :
    (playAudio fileOk st b p mode).playing =
      match mode with
      | StopMode.ANY => chPlay (fun _ => none) (getFixedChannelForButton st b).1 p
      | StopMode.SAME =>
          chPlay (chStop st.playing (getFixedChannelForButton st b).1)
            (getFixedChannelForButton st b).1 p := by
  unfold playAudio
  rw [if_neg (by simp [hp, hf])]
  by_cases hmem : p ∈ st.soundCache
  · rw [if_pos hmem]
    cases mode with
    | ANY => rfl
    | SAME =>
        show chPlay (chStop (getFixedChannelForButton st b).2.playing
              (getFixedChannelForButton st b).1) (getFixedChannelForButton st b).1 p
            = chPlay (chStop st.playing (getFixedChannelForButton st b).1)
              (getFixedChannelForButton st b).1 p
        rw [gfc_playing]
  · rw [if_neg hmem]
    cases mode with
    | ANY =>
        show chPlay (fun _ => none)
              (getFixedChannelForButton { st with soundCache := st.soundCache ++ [p] } b).1 p
            = chPlay (fun _ => none) (getFixedChannelForButton st b).1 p
        rw [gfc_fst_cache]
    | SAME =>
        show chPlay
              (chStop
                (getFixedChannelForButton { st with soundCache := st.soundCache ++ [p] } b).2.playing
                (getFixedChannelForButton { st with soundCache := st.soundCache ++ [p] } b).1)
              (getFixedChannelForButton { st with soundCache := st.soundCache ++ [p] } b).1 p
            = chPlay (chStop st.playing (getFixedChannelForButton st b).1)
              (getFixedChannelForButton st b).1 p
        rw [gfc_fst_cache, gfc_playing]

/-! ### The claims -/

/-- C1: channel assignment is a function and is injective on canonical ids.
Once a button has been resolved, re-resolving it after any further
interleaving of triggers and resolutions yields the same index; and in every
state reachable by running the engine, the canonical ids `"BTN" + N` and
`"BTN" + M` with `N ≠ M` (both positive) resolve to distinct channel
indices, regardless of the order in which ids were first seen. -/
theorem C1_assignment_function_injective (fileOk : PyStr → Bool) (ops : List EngineOp)
    (st : EngineState) (hst : st = runOps fileOk initEngine ops) (b : PyStr)
    (ops2 : List EngineOp) (N M : Nat) (hN : 1 ≤ N) (hM : 1 ≤ M) (hNM : N ≠ M) :
    (getFixedChannelForButton
        (runOps fileOk (getFixedChannelForButton st b).2 ops2) b).1
      = (getFixedChannelForButton st b).1
    ∧ (getFixedChannelForButton st (canonicalId N)).1
      ≠ (getFixedChannelForButton st (canonicalId M)).1 := by
  have hinv : EngineInv st := hst ▸ runOps_preserves_inv fileOk ops initEngine initEngine_inv
  constructor
  · have h1 := gfc_lookup_self st b
    have h2 := runOps_lookup_persist fileOk ops2 _ b _ h1
    rw [gfc_of_lookup _ _ _ h2]
  · rw [gfc_idx_of_parse st _ (N - 1) hinv (parseBtnIdx_canonical N hN),
      gfc_idx_of_parse st _ (M - 1) hinv (parseBtnIdx_canonical M hM)]
    omega

/-- Witness for C1 at the initial state, the non-canonical id `"X"` and the
canonical pair `"BTN1"`, `"BTN2"`. -/
theorem C1_assignment_witness :
    (getFixedChannelForButton
        (runOps (fun _ => true) (getFixedChannelForButton initEngine ['X']).2 []) ['X']).1
      = (getFixedChannelForButton initEngine ['X']).1
    ∧ (getFixedChannelForButton initEngine (canonicalId 1)).1
      ≠ (getFixedChannelForButton initEngine (canonicalId 2)).1 :=
  C1_assignment_function_injective (fun _ => true) [] initEngine rfl ['X'] [] 1 2
    (by decide) (by decide) (by decide)

/-- C2: under stop mode SAME, a trigger for button `b` touches only `b`'s
assigned channel — every other channel index keeps its previous state (in
particular the channel of any other button with a different assignment), and
`b`'s channel afterwards plays exactly the sound of this latest trigger. -/
theorem C2_same_mode_frame (fileOk : PyStr → Bool) (st : EngineState) (b p : PyStr)
    (j : Nat) (hp : p ≠ []) (hf : fileOk p = true)
    (hj : j ≠ (getFixedChannelForButton st b).1) :
    (playAudio fileOk st b p StopMode.SAME).playing j = st.playing j
    ∧ (playAudio fileOk st b p StopMode.SAME).playing
        (getFixedChannelForButton st b).1 = some p := by
  rw [playAudio_playing_eq fileOk st b p StopMode.SAME hp hf]
  refine ⟨?_, ?_⟩
  · simp [chPlay, chStop, hj]
  · simp [chPlay]

/-- Witness for C2: triggering `"BTN1"` at the initial state leaves channel 5
untouched and puts the sound on `"BTN1"`'s own channel. -/
theorem C2_same_mode_witness :
    (playAudio (fun _ => true) initEngine ['B', 'T', 'N', '1'] ['a', '.', 'w', 'a', 'v']
        StopMode.SAME).playing 5 = initEngine.playing 5
    ∧ (playAudio (fun _ => true) initEngine ['B', 'T', 'N', '1'] ['a', '.', 'w', 'a', 'v']
        StopMode.SAME).playing
        (getFixedChannelForButton initEngine ['B', 'T', 'N', '1']).1
      = some ['a', '.', 'w', 'a', 'v'] :=
  C2_same_mode_frame (fun _ => true) initEngine ['B', 'T', 'N', '1']
    ['a', '.', 'w', 'a', 'v'] 5 (by decide) rfl (by decide)

/-- C3: under stop mode ANY, a successful trigger first silences every channel
in the pool and then starts the new sound on the button's assigned channel;
afterwards no channel plays anything except the new one. -/
theorem C3_any_mode_global_silence (fileOk : PyStr → Bool) (st : EngineState)
    (b p : PyStr) (hp : p ≠ []) (hf : fileOk p = true) (j : Nat) :
    (playAudio fileOk st b p StopMode.ANY).playing j
      = if j = (getFixedChannelForButton st b).1 then some p else none := by
  rw [playAudio_playing_eq fileOk st b p StopMode.ANY hp hf]
  rfl

/-- Witness for C3: after an ANY-mode trigger of `"BTN2"` at the initial
state, channel 3 holds the new sound exactly when it is `"BTN2"`'s channel. -/
theorem C3_any_mode_witness :
    (playAudio (fun _ => true) initEngine ['B', 'T', 'N', '2'] ['b', '.', 'w', 'a', 'v']
        StopMode.ANY).playing 3
      = if 3 = (getFixedChannelForButton initEngine ['B', 'T', 'N', '2']).1
        then some ['b', '.', 'w', 'a', 'v'] else none :=
  C3_any_mode_global_silence (fun _ => true) initEngine ['B', 'T', 'N', '2']
    ['b', '.', 'w', 'a', 'v'] (by decide) rfl 3

/-- C4: a received line equal to the configured toggle id flips the stop
mode, calls the global-silence operation exactly once, notifies the front end
of the new mode, and is never treated as a playback trigger — the result is
fully determined and contains no `playCall`, whatever the mapping holds. -/
theorem C4_toggle_priority (fileOk : PyStr → Bool) (st : CtrlState) (msg : PyStr)
    (htog : st.toggle_button_id ≠ []) (hmsg : pyStrip msg = st.toggle_button_id) :
    handleArduinoMessage fileOk st msg
      = ({ st with stop_mode := flipMode st.stop_mode, engine := stopAllAudio st.engine },
        [Event.stopAllCall, Event.notifyMode (flipMode st.stop_mode)]) := by
  unfold handleArduinoMessage
  simp only [hmsg]
  rw [if_neg htog, if_pos ⟨htog, trivial⟩]

/-- Witness for C4 at a state whose toggle id `"BTN9"` is also a mapped
button. -/
theorem C4_toggle_witness :
    handleArduinoMessage (fun _ => true) ctrlC4 ['B', 'T', 'N', '9']
      = ({ ctrlC4 with
            stop_mode := flipMode ctrlC4.stop_mode
            engine := stopAllAudio ctrlC4.engine },
        [Event.stopAllCall, Event.notifyMode (flipMode ctrlC4.stop_mode)]) :=
  C4_toggle_priority (fun _ => true) ctrlC4 ['B', 'T', 'N', '9'] (by decide) (by decide)

/-- C5 counterexample: the fallback index for a non-canonical id is NOT taken
from a counter that avoids every previously assigned index. After `"BTN2"` is
first seen (assigned index 1), the non-canonical id `"X"` is assigned
`len(_channel_by_btn) = 1` as well — a collision with a previously seen
button's index. -/
theorem C5_fallback_counterexample :
    parseBtnIdx ['X'] = none
    ∧ (getFixedChannelForButton initEngine ['B', 'T', 'N', '2']).1 = 1
    ∧ (getFixedChannelForButton
        (getFixedChannelForButton initEngine ['B', 'T', 'N', '2']).2 ['X']).1 = 1 := by
  decide

/-- C5 amended: a non-canonical id seen for the first time is assigned the
current size of the assignment table (`len(_channel_by_btn)`), which grows by
one with each first sight; this index can coincide with an index already
assigned to a canonically-named button. -/
theorem C5_fallback_next_slot (st : EngineState) (b : PyStr)
    (hparse : parseBtnIdx b = none) (hnew : lookupAssoc st.channelByBtn b = none) :
    (getFixedChannelForButton st b).1 = st.channelByBtn.length
    ∧ (getFixedChannelForButton st b).2.channelByBtn.length
        = st.channelByBtn.length + 1 := by
  unfold getFixedChannelForButton
  rw [hnew]
  simp [hparse]

/-- Witness for the amended C5 at the initial state and the id `"X"`. -/
theorem C5_fallback_witness :
    (getFixedChannelForButton initEngine ['X']).1 = initEngine.channelByBtn.length
    ∧ (getFixedChannelForButton initEngine ['X']).2.channelByBtn.length
        = initEngine.channelByBtn.length + 1 :=
  C5_fallback_next_slot initEngine ['X'] (by decide) (by decide)

/-- C6 counterexample: with no audio folder configured (empty string) and a
relative mapped path, the controller does NOT treat the line as unmapped — it
issues the playback call on the relative path itself (the joined path with an
empty folder), and no unmapped report occurs. -/
theorem C6_counterexample :
    ctrlC6.audio_folder = []
    ∧ isAbs ['a', '.', 'w', 'a', 'v'] = false
    ∧ (handleArduinoMessage (fun _ => false) ctrlC6 ['B', 'T', 'N', '1']).2
        = [Event.playCall ['B', 'T', 'N', '1'] ['a', '.', 'w', 'a', 'v'] StopMode.SAME] := by
  decide

/-- C6 amended: for a received non-toggle line whose mapped path is relative,
when no audio folder is configured the controller still performs the
playback call, passing the relative path unchanged (joining it onto the empty
folder); the unmapped outcome is reported only when the line is absent from
the mapping. -/
theorem C6_relative_no_folder (fileOk : PyStr → Bool) (st : CtrlState)
    (msg mapped : PyStr) (hne : pyStrip msg ≠ [])
    (hnt : ¬(st.toggle_button_id ≠ [] ∧ pyStrip msg = st.toggle_button_id))
    (hmap : lookupAssoc st.button_mappings (pyStrip msg) = some mapped)
    (habs : isAbs mapped = false) (hfold : st.audio_folder = []) :
    (handleArduinoMessage fileOk st msg).2
      = [Event.playCall (pyStrip msg) mapped st.stop_mode] := by
  unfold handleArduinoMessage
  simp only [if_neg hne, if_neg hnt, hmap, hfold, joinPath, habs]
  simp

/-- Witness for the amended C6 at a state with empty folder and relative
mapped path for `"BTN1"`. -/
theorem C6_relative_witness :
    (handleArduinoMessage (fun _ => true) ctrlC6 ['B', 'T', 'N', '1']).2
      = [Event.playCall (pyStrip ['B', 'T', 'N', '1']) ['a', '.', 'w', 'a', 'v']
          ctrlC6.stop_mode] :=
  C6_relative_no_folder (fun _ => true) ctrlC6 ['B', 'T', 'N', '1'] ['a', '.', 'w', 'a', 'v']
    (by decide) (by decide) (by decide) (by decide) (by decide)

/-- C8: the channel pool starts at the default 64, no engine operation ever
shrinks it, and resolving the channel of canonical id `"BTN" + N` in any
reachable state leaves the capacity at least `N`. -/
theorem C8_capacity (fileOk : PyStr → Bool) (ops : List EngineOp) (st : EngineState)
    (hst : st = runOps fileOk initEngine ops) (N : Nat) (hN : 1 ≤ N) :
    initEngine.numChannels = DEFAULT_NUM_CHANNELS
    ∧ (∀ op : EngineOp, st.numChannels ≤ (runOp fileOk st op).numChannels)
    ∧ N ≤ (getFixedChannelForButton st (canonicalId N)).2.numChannels := by
  have hinv : EngineInv st := hst ▸ runOps_preserves_inv fileOk ops initEngine initEngine_inv
  refine ⟨rfl, fun op => runOp_numChannels_mono fileOk st op, ?_⟩
  have h := gfc_capacity_of_parse st (canonicalId N) (N - 1) hinv (parseBtnIdx_canonical N hN)
  omega

/-- Witness for C8 at the initial state with `N = 1`. -/
theorem C8_capacity_witness :
    initEngine.numChannels = DEFAULT_NUM_CHANNELS
    ∧ (∀ op : EngineOp,
        initEngine.numChannels ≤ (runOp (fun _ => true) initEngine op).numChannels)
    ∧ 1 ≤ (getFixedChannelForButton initEngine (canonicalId 1)).2.numChannels :=
  C8_capacity (fun _ => true) [] initEngine rfl 1 (by decide)

/-- C9: `handle_update_mappings` round-trips — after `updateMappings(m)` the
controller's stored mapping is exactly `m`, with no path resolution applied
at storage time. -/
theorem C9_update_mappings_roundtrip (st : CtrlState) (m : List (PyStr × PyStr))
    (guiToggle : PyStr) (guiMode : StopMode) :
    (handleUpdateMappings st m guiToggle guiMode).button_mappings = m := rfl

/-- C10: canonical parsing is case-insensitive — every case variant of
`"BTN" + N` (three leading characters uppercasing to `B`, `T`, `N`, followed
by the decimal digits of `N`) resolves to the deterministic index `N - 1`, the
same channel the canonical id itself resolves to, in any reachable state. -/
theorem C10_case_insensitive (fileOk : PyStr → Bool) (ops : List EngineOp)
    (st : EngineState) (hst : st = runOps fileOk initEngine ops) (N : Nat) (hN : 1 ≤ N)
    (c1 c2 c3 : Char) (h1 : c1.toUpper = 'B') (h2 : c2.toUpper = 'T')
    (h3 : c3.toUpper = 'N') :
    (getFixedChannelForButton st (c1 :: c2 :: c3 :: natDecimal N)).1 = N - 1
    ∧ (getFixedChannelForButton st (canonicalId N)).1 = N - 1 := by
  have hinv : EngineInv st := hst ▸ runOps_preserves_inv fileOk ops initEngine initEngine_inv
  exact ⟨gfc_idx_of_parse st _ _ hinv (parseBtnIdx_caseVariant c1 c2 c3 N h1 h2 h3 hN),
    gfc_idx_of_parse st _ _ hinv (parseBtnIdx_canonical N hN)⟩

/-- Witness for C10: `"btn1"` and `"BTN1"` both resolve to channel 0 at the
initial state. -/
theorem C10_case_witness :
    (getFixedChannelForButton initEngine ('b' :: 't' :: 'n' :: natDecimal 1)).1 = 0
    ∧ (getFixedChannelForButton initEngine (canonicalId 1)).1 = 0 :=
  C10_case_insensitive (fun _ => true) [] initEngine rfl 1 (by decide) 'b' 't' 'n'
    (by decide) (by decide) (by decide)

end Soundbar
